import Mathlib

/-!
Verification development for the telegram-takeout statistics script
(`tg-takeout-parser.py`).  The Python pipeline is shallowly embedded:
JSON records become Lean structures, pandas column operations become
list transformations, and operations that can raise become `Except`.
-/

/-- Source constant `CHAT_TYPES` (line 14): the chat types retained by
default by both the extractor and the table builder. -/
def CHAT_TYPES : List String := ["private_group", "personal_chat"]

/-- One element of a structured message text: either a plain string or a
span object carrying a `type` tag and a `text` field (the only fields the
script reads). -/
inductive TextElem where
  | str (s : String)
  | span (ty : String) (text : String)
deriving DecidableEq

/-- A raw `message.text` value: either a plain string or a list of mixed
string/span elements, as in the takeout JSON. -/
inductive TextValue where
  | str (s : String)
  | list (l : List TextElem)
deriving DecidableEq

/-- Python's `' '.join`: empty list gives `""`, a singleton passes
through, otherwise elements are separated by single spaces. -/
def joinSpace : List String → String
  | [] => ""
  | [x] => x
  | x :: xs => x ++ " " ++ joinSpace xs

/-- The inner `elem_f` closure of `normalize_text_value` (line 76): a span
becomes the fixed placeholder when link replacement is on and its type is
`"link"`, otherwise its `text` field; plain strings pass through. -/
def normalized_elem (replace_links : Bool) : TextElem → String
  | TextElem.str s => s
  | TextElem.span ty text => if replace_links && decide (ty = "link") then "<<link>>" else text

/-- Source `normalize_text_value` (lines 64-80): a list input is mapped
elementwise through `elem_f` and joined with single spaces; a plain
string input is returned as is. -/
def normalize_text_value (value : TextValue) (replace_links : Bool) : String :=
  match value with
  | TextValue.list l => joinSpace (l.map (normalized_elem replace_links))
  | TextValue.str s => s

/-- Calendar date of a message timestamp (the time-of-day part is never
used by the statistics, only `dt.to_period`). -/
structure Date where
  year : Nat
  month : Nat
  day : Nat
deriving DecidableEq

/-- Aggregation frequency: calendar month (`"M"`) or quarter (`"Q"`). -/
inductive Freq where
  | M
  | Q
deriving DecidableEq

/-- A pandas `Period`: the year together with the month (for `"M"`) or
the quarter number (for `"Q"`). -/
abbrev Period := Nat × Nat

/-- `date.dt.to_period(freq)` (line 144): truncate a date to its
period. -/
def Date.toPeriod (d : Date) (freq : Freq) : Period :=
  match freq with
  | Freq.M => (d.year, d.month)
  | Freq.Q => (d.year, (d.month - 1) / 3 + 1)

/-- A message record after the extractor's field allow-list projection
(`MESSAGE_RECORDS`, lines 16-24).  `duration_seconds` is kept as the raw
token so that the later `astype` coercion can be modelled; optional
fields absent from the JSON are `none`. -/
structure RawMessage where
  id : Int
  date : Date
  type : String
  from_id : String
  text : TextValue
  forwarded_from : Option String
  media_type : Option String
  duration_seconds : Option String
  file : Option String
deriving DecidableEq

/-- A chat record after the extractor's projection (`CHAT_RECORDS`,
lines 26-28) together with its reduced messages list. -/
structure Chat where
  id : Int
  name : String
  type : String
  messages : List RawMessage
deriving DecidableEq

/-- One flat row of the messages dataframe, after all column
conversions: the parent chat's fields under the `chat_` meta prefix, the
message's own fields, the normalized text, and the parsed sender id. -/
structure Row where
  chat_id : Int
  chat_name : String
  chat_type : String
  id : Int
  date : Date
  type : String
  from_id : Nat
  text : String
  forwarded_from : Option String
  media_type : Option String
  duration_seconds : Option Int
  file : Option String
deriving DecidableEq

/-- Source `load_needed_chats_data` (lines 40-56): the streaming loader
keeps exactly the chats whose `type` is in the fixed `CHAT_TYPES` list
(the generator on line 50); the per-field allow-list projection is the
identity on the typed records above. -/
def load_needed_chats_data (chats : List Chat) : List Chat :=
  chats.filter (fun c => decide (c.type ∈ CHAT_TYPES))

/-- `Series.str.replace('user', '')` (line 119) on one token: every
occurrence of the substring `"user"` is removed, scanning left to right
without overlap. -/
def removeUserAux : List Char → List Char
  | 'u' :: 's' :: 'e' :: 'r' :: rest => removeUserAux rest
  | c :: rest => c :: removeUserAux rest
  | [] => []

/-- Value of a decimal digit string (most significant digit first). -/
def digitsToNat (l : List Char) : Nat :=
  l.foldl (fun n c => n * 10 + (c.toNat - 48)) 0

/-- `astype('uint64')` (line 120) on one string token: succeeds exactly
on nonempty all-digit strings, giving their decimal value; anything else
raises. -/
def parseNatDigits (l : List Char) : Option Nat :=
  if l ≠ [] ∧ l.all (fun c => c.isDigit) then some (digitsToNat l) else none

/-- The full sender-id derivation of lines 119-120: remove every
occurrence of `"user"` from the raw `from_id` token, then parse the
remainder as an unsigned integer; `none` models the raised error. -/
def derive_from_id (s : String) : Option Nat :=
  parseNatDigits (removeUserAux s.data)

/-- Signed-integer parse of a raw token: an optional leading minus sign
followed by a nonempty digit string. -/
def parseIntDigits (l : List Char) : Option Int :=
  match l with
  | '-' :: rest => (parseNatDigits rest).map (fun n => -(n : Int))
  | _ => (parseNatDigits l).map (fun n => (n : Int))

/-- `astype('Int64')` (line 124) on a raw `duration_seconds` token: an
absent value stays absent (`NA`), a present token must parse as an
integer; `none` models the raised coercion error. -/
def coerceDuration : Option String → Option (Option Int)
  | none => some none
  | some s => (parseIntDigits s.data).map some

/-- Production of one flat row from a retained (chat, message) pair:
text normalization (line 116, with its default `replace_links=True`),
sender-id derivation (lines 119-120) and duration coercion (line 124);
a failing conversion anywhere raises, which the caller turns into a
failure of the whole build. -/
def buildRow (cm : Chat × RawMessage) : Except String Row :=
  match derive_from_id cm.2.from_id with
  | none => Except.error "could not convert from_id to uint64"
  | some fid =>
    match coerceDuration cm.2.duration_seconds with
    | none => Except.error "could not convert duration_seconds to Int64"
    | some d =>
      Except.ok
        { chat_id := cm.1.id
          chat_name := cm.1.name
          chat_type := cm.1.type
          id := cm.2.id
          date := cm.2.date
          type := cm.2.type
          from_id := fid
          text := normalize_text_value cm.2.text true
          forwarded_from := cm.2.forwarded_from
          media_type := cm.2.media_type
          duration_seconds := d
          file := cm.2.file }

/-- Row conversion over the whole table: the first raising conversion
aborts the build, as the column-wise `str.replace`/`astype` calls of
lines 119-124 do. -/
def buildRows : List (Chat × RawMessage) → Except String (List Row)
  | [] => Except.ok []
  | cm :: rest =>
    match buildRow cm with
    | Except.error e => Except.error e
    | Except.ok row =>
      match buildRows rest with
      | Except.error e => Except.error e
      | Except.ok rows => Except.ok (row :: rows)

/-- The (chat, message) pairs that survive the two row filters of
`gen_messages_dataframe`: `json_normalize` explodes every message with
its parent chat's meta fields (lines 100-104), line 111 keeps rows whose
parent chat type is accepted, line 114 keeps rows whose own kind is
`"message"`. -/
def retained_pairs (chats_list : List Chat) (chat_types : List String) :
    List (Chat × RawMessage) :=
  ((chats_list.flatMap (fun c => c.messages.map (fun m => (c, m)))).filter
      (fun cm => decide (cm.1.type ∈ chat_types))).filter
    (fun cm => decide (cm.2.type = "message"))

/-- Source `gen_messages_dataframe` (lines 83-131): flatten, filter,
normalize and coerce; `chat_types = none` models the Python default
`chat_types=None`, replaced by `CHAT_TYPES` on lines 97-98. -/
def gen_messages_dataframe (chats_list : List Chat)
    (chat_types : Option (List String)) : Except String (List Row) :=
  buildRows (retained_pairs chats_list (chat_types.getD CHAT_TYPES))

/-- One line of the statistics table (`STAT_COLUMNS_NAMES`, line 37):
distinct chat count, message count, character total and media-seconds
total for one period bucket. -/
structure StatRow where
  chats : Nat
  msg : Nat
  chr : Nat
  media_sec : Int
deriving DecidableEq

/-- The rows of the (possibly forwarded-filtered) table that fall into
bucket `p` under frequency `freq`. -/
def bucketRows (base : List Row) (freq : Freq) (p : Period) : List Row :=
  base.filter (fun r => decide (r.date.toPeriod freq = p))

/-- The `STAT_FUNCTIONS` aggregates (lines 32-35) on one bucket:
`nunique` of `chat_id`, `count` of the (never absent) `id` column, the
summed normalized-text lengths and the summed durations with absent
values contributing zero. -/
def bucketStats (base : List Row) (freq : Freq) (p : Period) : StatRow :=
  { chats := ((bucketRows base freq p).map (fun r => r.chat_id)).dedup.length
    msg := (bucketRows base freq p).length
    chr := ((bucketRows base freq p).map (fun r => r.text.length)).sum
    media_sec := ((bucketRows base freq p).map (fun r => r.duration_seconds.getD 0)).sum }

/-- The optional forwarded-row filter of `gen_stats_dataframe`
(lines 141-142): when exclusion is on, keep the rows whose
`forwarded_from` is absent. -/
def gen_stats_base (df : List Row) (exclude_forwarded : Bool) : List Row :=
  if exclude_forwarded then df.filter (fun r => r.forwarded_from.isNone) else df

/-- Source `gen_stats_dataframe` (lines 134-146): optionally drop rows
whose `forwarded_from` is present (lines 141-142), then group by the
truncated date and aggregate — one bucket per distinct period occurring
in the input. -/
def gen_stats_dataframe (df : List Row) (exclude_forwarded : Bool) (freq : Freq) :
    List (Period × StatRow) :=
  (((gen_stats_base df exclude_forwarded).map (fun r => r.date.toPeriod freq)).dedup).map
    (fun p => (p, bucketStats (gen_stats_base df exclude_forwarded) freq p))

/-- The merged sent/received line: the four sent aggregates and the four
received aggregates, the column suffixes of line 158 becoming field-name
suffixes. -/
structure SentReceivedRow where
  chats_sent : Nat
  msg_sent : Nat
  chr_sent : Nat
  media_sec_sent : Int
  chats_received : Nat
  msg_received : Nat
  chr_received : Nat
  media_sec_received : Int
deriving DecidableEq

/-- `sent_df.merge(received_df, on='date', suffixes=('_sent', '_received'))`
(line 158): pandas `merge` defaults to an inner join, so a sent bucket is
kept exactly when the received table has the same period; bucket keys are
distinct on both sides, so the first match is the only one. -/
def mergeStats (sent_df received_df : List (Period × StatRow)) :
    List (Period × SentReceivedRow) :=
  sent_df.filterMap (fun ps =>
    (received_df.find? (fun qr => decide (qr.1 = ps.1))).map (fun qr =>
      (ps.1,
        { chats_sent := ps.2.chats
          msg_sent := ps.2.msg
          chr_sent := ps.2.chr
          media_sec_sent := ps.2.media_sec
          chats_received := qr.2.chats
          msg_received := qr.2.msg
          chr_received := qr.2.chr
          media_sec_received := qr.2.media_sec })))

/-- Source `gen_sent_received_dataframe` (lines 149-158): aggregate the
owner's rows with forwarded messages excluded, aggregate everyone else's
rows without exclusion, and merge the two bucket tables on the period
key. -/
def gen_sent_received_dataframe (msg_df : List Row) (my_id : Nat) :
    List (Period × SentReceivedRow) :=
  mergeStats
    (gen_stats_dataframe (msg_df.filter (fun r => decide (r.from_id = my_id))) true Freq.M)
    (gen_stats_dataframe (msg_df.filter (fun r => !decide (r.from_id = my_id))) false Freq.M)

/-- The message count the statistics table reports for bucket `p`: the
`msg` column of the line keyed by `p`, zero when no such bucket exists
(a bucket with no rows is never produced). -/
def statLookupMsg (stats : List (Period × StatRow)) (p : Period) : Nat :=
  match stats.find? (fun q => decide (q.1 = p)) with
  | some q => q.2.msg
  | none => 0

/-- A message record with every optional field absent, used as the base
of the concrete test inputs below. -/
def baseMsg : RawMessage :=
  { id := 1
    date := { year := 2021, month := 1, day := 5 }
    type := "message"
    from_id := "user1"
    text := TextValue.str ""
    forwarded_from := none
    media_type := none
    duration_seconds := none
    file := none }

/-- A flat row with every optional field absent, base of the concrete
test rows below. -/
def baseRow : Row :=
  { chat_id := 10
    chat_name := "Alice"
    chat_type := "personal_chat"
    id := 1
    date := { year := 2021, month := 1, day := 5 }
    type := "message"
    from_id := 1
    text := ""
    forwarded_from := none
    media_type := none
    duration_seconds := none
    file := none }

/-- Concrete input for C1: a chat holding one message whose raw sender
token is the bare digits `"12345"`, without the `user` prefix. -/
def chatC1 : Chat :=
  { id := 10
    name := "Alice"
    type := "personal_chat"
    messages := [{ baseMsg with from_id := "12345" }] }

/-- The flat row the build produces from `chatC1`. -/
def rowC1 : Row := { baseRow with from_id := 12345 }

/-- Concrete table for C2: with owner id 1, the sent side has its only
bucket in January 2021 and the received side its only bucket in
February 2021, so each bucket exists on exactly one side. -/
def exC2 : List Row :=
  [baseRow,
   { baseRow with id := 2, from_id := 2, date := { year := 2021, month := 2, day := 1 } }]

/-- Concrete table for C2's amended witness: one sent and one received
message in the same month. -/
def exC2b : List Row :=
  [baseRow, { baseRow with id := 2, from_id := 2 }]

/-- Concrete table for C4's end-to-end scenario: owner id 1, three
same-month messages — two from sender 1 (one forwarded), one from
sender 2. -/
def exC4 : List Row :=
  [baseRow,
   { baseRow with id := 2, forwarded_from := some "X" },
   { baseRow with id := 3, from_id := 2 }]

/-- Concrete table for C5: two January 2021 rows (texts of lengths 2 and
3, one with a 7-second duration) and one February 2021 row. -/
def exC5 : List Row :=
  [{ baseRow with text := "hi" },
   { baseRow with id := 2, text := "abc", duration_seconds := some 7 },
   { baseRow with id := 3, date := { year := 2021, month := 2, day := 1 } }]

/-- Concrete input for C6: a chat with one clean message and one message
whose raw `duration_seconds` token is not numeric. -/
def chatC6 : Chat :=
  { id := 10
    name := "Alice"
    type := "personal_chat"
    messages := [baseMsg, { baseMsg with id := 2, duration_seconds := some "abc" }] }

/-- Concrete input for C7: a private-group chat with one message. -/
def chatC7 : Chat :=
  { id := 11
    name := "Bob"
    type := "private_group"
    messages := [{ baseMsg with from_id := "user7", text := TextValue.str "hello" }] }

/-- The flat row the build produces from `chatC7`. -/
def rowC7 : Row :=
  { baseRow with
      chat_id := 11, chat_name := "Bob", chat_type := "private_group",
      from_id := 7, text := "hello" }

/-- Concrete table for C8: two January 2021 rows, one of them
forwarded. -/
def exC8 : List Row :=
  [baseRow, { baseRow with id := 2, forwarded_from := some "Y" }]

/-- Concrete input for C10: an accepted personal chat. -/
def chatC10 : Chat :=
  { id := 12, name := "Carol", type := "personal_chat", messages := [baseMsg] }

/-- Concrete input for C10: a public channel, which the pipeline must
drop. -/
def chatC10b : Chat :=
  { id := 13, name := "Dave", type := "public_channel", messages := [baseMsg] }

/-- The flat row the build produces from `chatC10`. -/
def rowC10 : Row := { baseRow with chat_id := 12, chat_name := "Carol" }

/-! ### Helper lemmas about the sender-token transformation -/

theorem removeUserAux_user (l : List Char) :
    removeUserAux ('u' :: 's' :: 'e' :: 'r' :: l) = removeUserAux l := rfl

theorem removeUserAux_cons_ne (c : Char) (rest : List Char) (hc : c ≠ 'u') :
    removeUserAux (c :: rest) = c :: removeUserAux rest := by
  rw [removeUserAux.eq_def]
  split
  · rename_i rest2 h
    rw [List.cons.injEq] at h
    exact absurd h.1 hc
  · rename_i c2 rest2 h h2
    rw [List.cons.injEq] at h2
    obtain ⟨h3, h4⟩ := h2
    subst h3; subst h4
    rfl
  · simp_all

theorem removeUserAux_append (l1 l2 : List Char) (h : ∀ c ∈ l1, c ≠ 'u') :
    removeUserAux (l1 ++ l2) = l1 ++ removeUserAux l2 := by
  induction l1 with
  | nil => simp
  | cons c rest ih =>
    rw [List.cons_append, removeUserAux_cons_ne c (rest ++ l2) (h c (List.mem_cons_self c rest))]
    rw [ih (fun x hx => h x (List.mem_cons_of_mem c hx))]
    rfl

theorem digit_ne_u (c : Char) (h : c.isDigit = true) : c ≠ 'u' := by
  intro he
  subst he
  exact absurd h (by decide)

theorem removeUserAux_digits (l : List Char) (h : ∀ c ∈ l, c.isDigit = true) :
    removeUserAux l = l := by
  have h2 := removeUserAux_append l [] (fun c hc => digit_ne_u c (h c hc))
  simpa [show removeUserAux [] = ([] : List Char) from rfl] using h2

theorem parseNatDigits_of_digits (l : List Char) (h1 : l ≠ [])
    (h2 : ∀ c ∈ l, c.isDigit = true) :
    parseNatDigits l = some (digitsToNat l) := by
  unfold parseNatDigits
  rw [if_pos ⟨h1, List.all_eq_true.mpr h2⟩]

/-! ### Claim C1 -/

/-- C1 counterexample: the spec says the bare token `"12345"` (lacking
the `user` prefix) must fail with a MalformedSenderError, but the code's
derivation accepts it — `str.replace` removes occurrences rather than
requiring a prefix — and a whole build containing such a token succeeds. -/
theorem C1_counterexample :
    derive_from_id "12345" = some 12345 ∧
    gen_messages_dataframe [chatC1] none = Except.ok [rowC1] :=
  ⟨by decide, rfl⟩

/-- C1 (amended): the sender derivation removes every occurrence of the
substring `"user"` from the raw token and parses the remainder as an
unsigned integer.  A `user`-prefixed digit token yields its digits'
value as claimed, but a bare digit token also succeeds with the same
value; the build fails only when the token is non-numeric after the
removal. -/
theorem C1_amended_sender_derivation (s t : String) (h1 : s.data ≠ [])
    (h2 : ∀ c ∈ s.data, c.isDigit = true)
    (h3 : ∃ c ∈ removeUserAux t.data, c.isDigit = false) :
    derive_from_id ("user" ++ s) = some (digitsToNat s.data) ∧
    derive_from_id s = some (digitsToNat s.data) ∧
    derive_from_id t = none := by
  refine ⟨?_, ?_, ?_⟩
  · show parseNatDigits (removeUserAux (("user" ++ s).data)) = some (digitsToNat s.data)
    have hd : ("user" ++ s).data = 'u' :: 's' :: 'e' :: 'r' :: s.data := rfl
    rw [hd, removeUserAux_user, removeUserAux_digits s.data h2]
    exact parseNatDigits_of_digits s.data h1 h2
  · show parseNatDigits (removeUserAux s.data) = some (digitsToNat s.data)
    rw [removeUserAux_digits s.data h2]
    exact parseNatDigits_of_digits s.data h1 h2
  · show parseNatDigits (removeUserAux t.data) = none
    obtain ⟨c, hc, hd⟩ := h3
    unfold parseNatDigits
    rw [if_neg]
    intro hcon
    have hall := List.all_eq_true.mp hcon.2 c hc
    rw [hd] at hall
    exact Bool.false_ne_true hall

/-- Witness for C1's amended theorem at the tokens `"12345"` (digits)
and `"uuser"` (non-numeric after removal). -/
theorem C1_amended_sender_derivation_witness :
    derive_from_id ("user" ++ "12345") = some (digitsToNat "12345".data) ∧
    derive_from_id "12345" = some (digitsToNat "12345".data) ∧
    derive_from_id "uuser" = none :=
  C1_amended_sender_derivation "12345" "uuser" (by decide) (by decide) (by decide)

/-! ### Claim C9 -/

/-- C9: the implemented derivation removes every occurrence of the
substring `"user"` anywhere in the token — not only a leading prefix —
before parsing the remainder as an unsigned integer, and a prefixless
all-digit token parses successfully to its numeric value. -/
theorem C9_every_occurrence (a b : String) (ha : ∀ c ∈ a.data, c.isDigit = true)
    (hb : ∀ c ∈ b.data, c.isDigit = true) (hne : a.data ++ b.data ≠ []) :
    derive_from_id (a ++ "user" ++ b) = some (digitsToNat (a.data ++ b.data)) ∧
    derive_from_id (a ++ b) = some (digitsToNat (a.data ++ b.data)) := by
  have hab : ∀ c ∈ a.data ++ b.data, c.isDigit = true := by
    intro c hc
    rcases List.mem_append.mp hc with h | h
    · exact ha c h
    · exact hb c h
  constructor
  · show parseNatDigits (removeUserAux ((a ++ "user" ++ b).data)) = _
    have hd : (a ++ "user" ++ b).data = a.data ++ ('u' :: 's' :: 'e' :: 'r' :: b.data) := by
      show (a.data ++ "user".data) ++ b.data = _
      rw [List.append_assoc]
      rfl
    rw [hd, removeUserAux_append a.data _ (fun c hc => digit_ne_u c (ha c hc))]
    rw [removeUserAux_user, removeUserAux_digits b.data hb]
    exact parseNatDigits_of_digits (a.data ++ b.data) hne hab
  · show parseNatDigits (removeUserAux ((a ++ b).data)) = _
    have hd : (a ++ b).data = a.data ++ b.data := rfl
    rw [hd, removeUserAux_append a.data _ (fun c hc => digit_ne_u c (ha c hc))]
    rw [removeUserAux_digits b.data hb]
    exact parseNatDigits_of_digits (a.data ++ b.data) hne hab

/-- Witness for C9 at the token `"123user456"`, which parses to
`123456`. -/
theorem C9_every_occurrence_witness :
    derive_from_id ("123" ++ "user" ++ "456") = some (digitsToNat ("123".data ++ "456".data)) ∧
    derive_from_id ("123" ++ "456") = some (digitsToNat ("123".data ++ "456".data)) :=
  C9_every_occurrence "123" "456" (by decide) (by decide) (by decide)

/-! ### Claim C3 -/

/-- C3: the normalizer returns a plain-string input unchanged; a list
input is joined with single spaces, plain-string elements pass through
verbatim, spans are replaced by their text field except that a link span
with replacement enabled becomes the fixed placeholder; and the spec's
example list gives `"a b"`. -/
theorem C3_normalizer :
    (∀ (s : String) (rl : Bool), normalize_text_value (TextValue.str s) rl = s) ∧
    (∀ rl : Bool, normalize_text_value (TextValue.list []) rl = "") ∧
    (∀ (e : TextElem) (l : List TextElem) (rl : Bool), l ≠ [] →
      normalize_text_value (TextValue.list (e :: l)) rl =
        normalize_text_value (TextValue.list [e]) rl ++ " " ++
          normalize_text_value (TextValue.list l) rl) ∧
    (∀ (s : String) (rl : Bool), normalize_text_value (TextValue.list [TextElem.str s]) rl = s) ∧
    (∀ ty t : String, normalize_text_value (TextValue.list [TextElem.span ty t]) true =
      if ty = "link" then "<<link>>" else t) ∧
    (∀ ty t : String, normalize_text_value (TextValue.list [TextElem.span ty t]) false = t) ∧
    normalize_text_value (TextValue.list [TextElem.str "a", TextElem.span "bold" "b"]) true = "a b" := by
  refine ⟨fun s rl => rfl, fun rl => rfl, ?_, fun s rl => rfl, ?_, ?_, by decide⟩
  · intro e l rl hl
    cases l with
    | nil => exact absurd rfl hl
    | cons y ys => rfl
  · intro ty t
    by_cases h : ty = "link" <;>
      simp [normalize_text_value, joinSpace, normalized_elem, h]
  · intro ty t
    simp [normalize_text_value, joinSpace, normalized_elem]

/-- Witness for C3's space-joining part at a two-element list. -/
theorem C3_normalizer_witness :
    normalize_text_value (TextValue.list [TextElem.str "x", TextElem.span "link" "u"]) true =
      normalize_text_value (TextValue.list [TextElem.str "x"]) true ++ " " ++
        normalize_text_value (TextValue.list [TextElem.span "link" "u"]) true :=
  C3_normalizer.2.2.1 (TextElem.str "x") [TextElem.span "link" "u"] true (by decide)

/-! ### Helper lemmas about the aggregator -/

theorem gen_stats_base_false (df : List Row) : gen_stats_base df false = df := rfl

theorem gen_stats_base_true (df : List Row) :
    gen_stats_base df true = df.filter (fun r => r.forwarded_from.isNone) := rfl

theorem find?_period_map (periods : List Period) (f : Period → StatRow) (p : Period) :
    ((periods.map (fun q => (q, f q))).find? (fun x => decide (x.1 = p))) =
      if p ∈ periods then some (p, f p) else none := by
  induction periods with
  | nil => rfl
  | cons q rest ih =>
    rw [List.map_cons]
    by_cases h : q = p
    · subst h
      rw [List.find?_cons_of_pos _ (by simp)]
      simp
    · rw [List.find?_cons_of_neg _ (by simp [h]), ih]
      by_cases hm : p ∈ rest
      · rw [if_pos hm, if_pos (List.mem_cons_of_mem q hm)]
      · rw [if_neg hm, if_neg]
        intro hc
        rcases List.mem_cons.mp hc with he | hm2
        · exact h he.symm
        · exact hm hm2

theorem statLookupMsg_gen_stats (df : List Row) (ex : Bool) (freq : Freq) (p : Period) :
    statLookupMsg (gen_stats_dataframe df ex freq) p =
      (bucketRows (gen_stats_base df ex) freq p).length := by
  unfold statLookupMsg gen_stats_dataframe
  rw [find?_period_map]
  by_cases h : p ∈ ((gen_stats_base df ex).map (fun r => r.date.toPeriod freq)).dedup
  · rw [if_pos h]
    rfl
  · rw [if_neg h]
    have hempty : bucketRows (gen_stats_base df ex) freq p = [] := by
      rw [bucketRows, List.filter_eq_nil_iff]
      intro r hr hpr
      have hkey : r.date.toPeriod freq = p := of_decide_eq_true hpr
      exact h (List.mem_dedup.mpr (List.mem_map.mpr ⟨r, hr, hkey⟩))
    rw [hempty]
    rfl

theorem length_filter_le_of_imp (l : List Row) (p q : Row → Bool)
    (h : ∀ a, p a = true → q a = true) :
    (l.filter p).length ≤ (l.filter q).length := by
  induction l with
  | nil => exact Nat.le_refl 0
  | cons a rest ih =>
    by_cases hp : p a = true
    · rw [List.filter_cons_of_pos hp, List.filter_cons_of_pos (h a hp)]
      exact Nat.succ_le_succ ih
    · rw [List.filter_cons_of_neg (by simpa using hp)]
      by_cases hq : q a = true
      · rw [List.filter_cons_of_pos hq]
        exact Nat.le_trans ih (Nat.le_succ _)
      · rw [List.filter_cons_of_neg (by simpa using hq)]
        exact ih

theorem length_filter_lt_of_mem (l : List Row) (p q : Row → Bool)
    (himp : ∀ a, p a = true → q a = true)
    (a : Row) (hal : a ∈ l) (hqa : q a = true) (hpa : p a = false) :
    (l.filter p).length < (l.filter q).length := by
  induction l with
  | nil => cases hal
  | cons b rest ih =>
    rcases List.mem_cons.mp hal with he | hm
    · subst he
      rw [List.filter_cons_of_neg (by simp [hpa]), List.filter_cons_of_pos hqa]
      exact Nat.lt_succ_of_le (length_filter_le_of_imp rest p q himp)
    · by_cases hp : p b = true
      · rw [List.filter_cons_of_pos hp, List.filter_cons_of_pos (himp b hp)]
        exact Nat.succ_lt_succ (ih hm)
      · rw [List.filter_cons_of_neg (by simpa using hp)]
        by_cases hq : q b = true
        · rw [List.filter_cons_of_pos hq]
          exact Nat.lt_succ_of_lt (ih hm)
        · rw [List.filter_cons_of_neg (by simpa using hq)]
          exact ih hm

/-! ### Claim C5 -/

/-- C5: with no forwarded exclusion, the aggregator produces exactly one
bucket per distinct period present in the input (none for empty
periods), and in each bucket the message count is the number of rows
whose truncated timestamp falls in it, the character total is the sum of
those rows' normalized-text lengths, and the media-seconds total sums
the duration field with absent durations contributing zero. -/
theorem C5_aggregator (df : List Row) (freq : Freq) :
    ((gen_stats_dataframe df false freq).map Prod.fst =
      (df.map (fun r => r.date.toPeriod freq)).dedup) ∧
    (∀ p s, (p, s) ∈ gen_stats_dataframe df false freq →
      s.msg = (df.filter (fun r => decide (r.date.toPeriod freq = p))).length ∧
      s.chr = ((df.filter (fun r => decide (r.date.toPeriod freq = p))).map
        (fun r => r.text.length)).sum ∧
      s.media_sec = ((df.filter (fun r => decide (r.date.toPeriod freq = p))).map
        (fun r => r.duration_seconds.getD 0)).sum ∧
      0 < s.msg) := by
  constructor
  · show ((((gen_stats_base df false).map (fun r => r.date.toPeriod freq)).dedup).map
      (fun p => (p, bucketStats (gen_stats_base df false) freq p))).map Prod.fst = _
    rw [List.map_map]
    rw [gen_stats_base_false]
    exact List.map_id _
  · intro p s hmem
    obtain ⟨q, hq, heq⟩ := List.mem_map.mp hmem
    obtain ⟨hp, hs⟩ := Prod.mk.injEq q (bucketStats (gen_stats_base df false) freq q) p s |>.mp heq
    subst hp
    rw [← hs]
    rw [gen_stats_base_false] at hq ⊢
    refine ⟨rfl, rfl, rfl, ?_⟩
    have hex : ∃ r ∈ df, r.date.toPeriod freq = q := by
      have hq2 := List.mem_dedup.mp hq
      obtain ⟨r, hr, hkey⟩ := List.mem_map.mp hq2
      exact ⟨r, hr, hkey⟩
    obtain ⟨r, hr, hkey⟩ := hex
    have hrin : r ∈ bucketRows df freq q :=
      List.mem_filter.mpr ⟨hr, decide_eq_true hkey⟩
    show 0 < (bucketRows df freq q).length
    exact List.length_pos.mpr (List.ne_nil_of_mem hrin)

/-- Witness for C5 on `exC5` at the January 2021 bucket. -/
theorem C5_aggregator_witness :
    ({ chats := 1, msg := 2, chr := 5, media_sec := 7 } : StatRow).msg =
      (exC5.filter (fun r => decide (r.date.toPeriod Freq.M = (2021, 1)))).length ∧
    ({ chats := 1, msg := 2, chr := 5, media_sec := 7 } : StatRow).chr =
      ((exC5.filter (fun r => decide (r.date.toPeriod Freq.M = (2021, 1)))).map
        (fun r => r.text.length)).sum ∧
    ({ chats := 1, msg := 2, chr := 5, media_sec := 7 } : StatRow).media_sec =
      ((exC5.filter (fun r => decide (r.date.toPeriod Freq.M = (2021, 1)))).map
        (fun r => r.duration_seconds.getD 0)).sum ∧
    0 < ({ chats := 1, msg := 2, chr := 5, media_sec := 7 } : StatRow).msg :=
  (C5_aggregator exC5 Freq.M).2 (2021, 1)
    { chats := 1, msg := 2, chr := 5, media_sec := 7 } (by decide)

/-! ### Claim C8 -/

/-- C8: for every table, frequency and period bucket, the message count
with forwarded exclusion is at most the count without it, and strictly
smaller whenever the table has a forwarded row in that bucket. -/
theorem C8_forwarded_monotone (df : List Row) (freq : Freq) (p : Period) :
    statLookupMsg (gen_stats_dataframe df true freq) p ≤
      statLookupMsg (gen_stats_dataframe df false freq) p ∧
    ((∃ r ∈ df, r.date.toPeriod freq = p ∧ r.forwarded_from.isSome = true) →
      statLookupMsg (gen_stats_dataframe df true freq) p <
        statLookupMsg (gen_stats_dataframe df false freq) p) := by
  have hbt : bucketRows (gen_stats_base df true) freq p =
      df.filter (fun r => decide (r.date.toPeriod freq = p) && r.forwarded_from.isNone) := by
    rw [gen_stats_base_true, bucketRows, List.filter_filter]
  have hbf : bucketRows (gen_stats_base df false) freq p =
      df.filter (fun r => decide (r.date.toPeriod freq = p)) := rfl
  have himp : ∀ a : Row,
      (decide (a.date.toPeriod freq = p) && a.forwarded_from.isNone) = true →
      decide (a.date.toPeriod freq = p) = true :=
    fun a ha => ((Bool.and_eq_true _ _).mp ha).1
  constructor
  · rw [statLookupMsg_gen_stats, statLookupMsg_gen_stats, hbt, hbf]
    exact length_filter_le_of_imp df _ _ himp
  · rintro ⟨r, hr, hkey, hfwd⟩
    rw [statLookupMsg_gen_stats, statLookupMsg_gen_stats, hbt, hbf]
    refine length_filter_lt_of_mem df _ _ himp r hr (decide_eq_true hkey) ?_
    have hnone : r.forwarded_from.isNone = false := by
      cases hopt : r.forwarded_from with
      | none => rw [hopt] at hfwd; simp at hfwd
      | some v => rfl
    rw [hnone, decide_eq_true hkey]
    rfl

/-- Witness for C8 on `exC8`, which has a forwarded January 2021 row:
the excluded count is strictly smaller. -/
theorem C8_forwarded_monotone_witness :
    statLookupMsg (gen_stats_dataframe exC8 true Freq.M) (2021, 1) <
      statLookupMsg (gen_stats_dataframe exC8 false Freq.M) (2021, 1) :=
  (C8_forwarded_monotone exC8 Freq.M (2021, 1)).2 (by decide)

/-! ### Helper lemma about the sent/received merge -/

theorem mergeStats_mem_iff (s r : List (Period × StatRow)) (p : Period) :
    (∃ x ∈ mergeStats s r, x.1 = p) ↔
      ((∃ y ∈ s, y.1 = p) ∧ (∃ z ∈ r, z.1 = p)) := by
  constructor
  · rintro ⟨x, hx, hxp⟩
    obtain ⟨ps, hps, hf⟩ := List.mem_filterMap.mp hx
    obtain ⟨qr, hfind, hmap⟩ := Option.map_eq_some'.mp hf
    have hqr_mem := List.mem_of_find?_eq_some hfind
    have hqr_eq : qr.1 = ps.1 := by
      have h2 := List.find?_some hfind
      simpa using h2
    have hx1 : x.1 = ps.1 := by rw [← hmap]
    exact ⟨⟨ps, hps, by rw [← hx1, hxp]⟩, ⟨qr, hqr_mem, by rw [hqr_eq, ← hx1, hxp]⟩⟩
  · rintro ⟨⟨y, hy, hyp⟩, ⟨z, hz, hzp⟩⟩
    have hsome : (r.find? (fun qr => decide (qr.1 = y.1))).isSome := by
      rw [List.find?_isSome]
      exact ⟨z, hz, decide_eq_true (by rw [hzp, hyp])⟩
    obtain ⟨qr, hqr⟩ := Option.isSome_iff_exists.mp hsome
    refine ⟨(y.1,
      { chats_sent := y.2.chats, msg_sent := y.2.msg, chr_sent := y.2.chr,
        media_sec_sent := y.2.media_sec,
        chats_received := qr.2.chats, msg_received := qr.2.msg, chr_received := qr.2.chr,
        media_sec_received := qr.2.media_sec }), ?_, hyp⟩
    refine List.mem_filterMap.mpr ⟨y, hy, ?_⟩
    rw [hqr]
    rfl

/-! ### Claim C2 -/

/-- C2 counterexample: on `exC2` the sent side has only the January 2021
bucket and the received side only the February 2021 bucket, yet the
merged table is empty — a bucket present on one side only is dropped by
the inner join, not kept with absent aggregates. -/
theorem C2_counterexample :
    (gen_stats_dataframe (exC2.filter (fun r => decide (r.from_id = 1))) true Freq.M).map
        Prod.fst = [(2021, 1)] ∧
    (gen_stats_dataframe (exC2.filter (fun r => !decide (r.from_id = 1))) false Freq.M).map
        Prod.fst = [(2021, 2)] ∧
    gen_sent_received_dataframe exC2 1 = [] :=
  ⟨rfl, rfl, rfl⟩

/-- C2 (amended): the merge of the sent and received bucket tables is an
inner join on the period key — a period appears in the merged result
exactly when it has a bucket on both sides; a bucket present in only one
side is dropped, not kept with the other side's aggregates null. -/
theorem C2_amended_inner_join (msg_df : List Row) (my_id : Nat) (p : Period) :
    (∃ x ∈ gen_sent_received_dataframe msg_df my_id, x.1 = p) ↔
      ((∃ y ∈ gen_stats_dataframe (msg_df.filter (fun r => decide (r.from_id = my_id)))
          true Freq.M, y.1 = p) ∧
       (∃ z ∈ gen_stats_dataframe (msg_df.filter (fun r => !decide (r.from_id = my_id)))
          false Freq.M, z.1 = p)) :=
  mergeStats_mem_iff _ _ p

/-- Witness for C2's amended theorem on `exC2b`, where January 2021 has
a bucket on both sides and therefore survives the merge. -/
theorem C2_amended_inner_join_witness :
    ∃ x ∈ gen_sent_received_dataframe exC2b 1, x.1 = (2021, 1) :=
  (C2_amended_inner_join exC2b 1 (2021, 1)).mpr ⟨by decide, by decide⟩

/-! ### Claim C4 -/

/-- C4: the sent/received view is exactly the aggregator run on the
owner's rows with forwarded exclusion and on all other rows without it,
merged on the period key with sent/received suffixes; on the spec's
end-to-end scenario (owner 1, two messages from sender 1 of which one is
forwarded, one from sender 2, all in January 2021) the sent and received
message counts are both 1. -/
theorem C4_sent_received :
    (∀ (msg_df : List Row) (my_id : Nat),
      gen_sent_received_dataframe msg_df my_id =
        mergeStats
          (gen_stats_dataframe (msg_df.filter (fun r => decide (r.from_id = my_id)))
            true Freq.M)
          (gen_stats_dataframe (msg_df.filter (fun r => !decide (r.from_id = my_id)))
            false Freq.M)) ∧
    gen_sent_received_dataframe exC4 1 =
      [((2021, 1),
        { chats_sent := 1, msg_sent := 1, chr_sent := 0, media_sec_sent := 0,
          chats_received := 1, msg_received := 1, chr_received := 0,
          media_sec_received := 0 })] :=
  ⟨fun _ _ => rfl, rfl⟩

/-! ### Helper lemmas about the whole-table build -/

theorem buildRows_error_of_mem (l : List (Chat × RawMessage)) (cm : Chat × RawMessage)
    (hm : cm ∈ l) (hbad : (buildRow cm).isOk = false) :
    ∃ e, buildRows l = Except.error e := by
  induction l with
  | nil => cases hm
  | cons x rest ih =>
    rcases List.mem_cons.mp hm with he | hm2
    · subst he
      cases hx : buildRow cm with
      | error e => exact ⟨e, by simp [buildRows, hx]⟩
      | ok row =>
        rw [hx] at hbad
        simp [Except.isOk, Except.toBool] at hbad
    · cases hx : buildRow x with
      | error e => exact ⟨e, by simp [buildRows, hx]⟩
      | ok row =>
        obtain ⟨e, he⟩ := ih hm2
        exact ⟨e, by simp [buildRows, hx, he]⟩

theorem buildRows_ok_mem (l : List (Chat × RawMessage)) (rows : List Row)
    (h : buildRows l = Except.ok rows) :
    ∀ row ∈ rows, ∃ cm ∈ l, buildRow cm = Except.ok row := by
  induction l generalizing rows with
  | nil =>
    intro row hrow
    have h2 : ([] : List Row) = rows := by
      have h3 : buildRows [] = Except.ok ([] : List Row) := rfl
      rw [h3] at h
      injection h
    rw [← h2] at hrow
    cases hrow
  | cons x rest ih =>
    intro row hrow
    cases hx : buildRow x with
    | error e =>
      simp only [buildRows, hx] at h
      exact Except.noConfusion h
    | ok r0 =>
      cases hrest : buildRows rest with
      | error e =>
        simp only [buildRows, hx, hrest] at h
        exact Except.noConfusion h
      | ok rs =>
        simp only [buildRows, hx, hrest] at h
        have h2 : r0 :: rs = rows := by injection h
        rw [← h2] at hrow
        rcases List.mem_cons.mp hrow with he | hm
        · subst he
          exact ⟨x, List.mem_cons_self x rest, hx⟩
        · obtain ⟨cm, hcm, hcmok⟩ := ih rs hrest row hm
          exact ⟨cm, List.mem_cons_of_mem x hcm, hcmok⟩

theorem buildRow_ok_fields (cm : Chat × RawMessage) (row : Row)
    (h : buildRow cm = Except.ok row) :
    row.chat_id = cm.1.id ∧ row.chat_name = cm.1.name ∧ row.chat_type = cm.1.type ∧
    row.id = cm.2.id ∧ row.date = cm.2.date ∧ row.type = cm.2.type := by
  unfold buildRow at h
  cases hfid : derive_from_id cm.2.from_id with
  | none => rw [hfid] at h; simp at h
  | some fid =>
    rw [hfid] at h
    cases hdur : coerceDuration cm.2.duration_seconds with
    | none => rw [hdur] at h; simp at h
    | some d =>
      rw [hdur] at h
      have h2 := Except.ok.inj h
      rw [← h2]
      exact ⟨rfl, rfl, rfl, rfl, rfl, rfl⟩

/-! ### Claim C6 -/

/-- C6 counterexample: `chatC6` holds one clean message and one message
with a non-numeric duration; the claim predicts a table with the clean
row, but the build fails as a whole with a coercion error. -/
theorem C6_counterexample :
    gen_messages_dataframe [chatC6] none =
      Except.error "could not convert duration_seconds to Int64" :=
  rfl

/-- C6 (amended): when any retained row carries a field value that
cannot be coerced to its declared type, the whole table build fails with
an error — the failing row is not skipped and no partial table of the
remaining rows is returned. -/
theorem C6_amended_build_fails (chats_list : List Chat) (chat_types : Option (List String))
    (h : ∃ cm ∈ retained_pairs chats_list (chat_types.getD CHAT_TYPES),
      (buildRow cm).isOk = false) :
    ∃ e, gen_messages_dataframe chats_list chat_types = Except.error e := by
  obtain ⟨cm, hm, hbad⟩ := h
  exact buildRows_error_of_mem _ cm hm hbad

/-- Witness for C6's amended theorem on `chatC6`. -/
theorem C6_amended_build_fails_witness :
    ∃ e, gen_messages_dataframe [chatC6] none = Except.error e :=
  C6_amended_build_fails [chatC6] none (by decide)

/-! ### Claim C7 -/

/-- C7: every row the build produces comes from a message of some input
chat; its chat-prefixed fields equal exactly that parent chat's id, name
and type, its own id is the message's id, the parent chat type is in the
accepted set and the message kind is `"message"` — no row with a
filtered-out parent chat is ever produced. -/
theorem C7_join_correctness (chats_list : List Chat) (chat_types : Option (List String))
    (rows : List Row) (h : gen_messages_dataframe chats_list chat_types = Except.ok rows) :
    ∀ row ∈ rows, ∃ c ∈ chats_list, ∃ m ∈ c.messages,
      row.chat_id = c.id ∧ row.chat_name = c.name ∧ row.chat_type = c.type ∧
      row.id = m.id ∧ row.type = "message" ∧ m.type = "message" ∧
      c.type ∈ chat_types.getD CHAT_TYPES := by
  intro row hrow
  obtain ⟨cm, hcm, hok⟩ := buildRows_ok_mem _ rows h row hrow
  have hcm2 := List.mem_filter.mp hcm
  have hmsg : cm.2.type = "message" := of_decide_eq_true hcm2.2
  have hcm3 := List.mem_filter.mp hcm2.1
  have htype : cm.1.type ∈ chat_types.getD CHAT_TYPES := of_decide_eq_true hcm3.2
  obtain ⟨c, hc, hcm4⟩ := List.mem_flatMap.mp hcm3.1
  obtain ⟨m, hm, hcmeq⟩ := List.mem_map.mp hcm4
  have hfields := buildRow_ok_fields cm row hok
  refine ⟨c, hc, m, hm, ?_, ?_, ?_, ?_, ?_, ?_, ?_⟩
  · rw [hfields.1, ← hcmeq]
  · rw [hfields.2.1, ← hcmeq]
  · rw [hfields.2.2.1, ← hcmeq]
  · rw [hfields.2.2.2.1, ← hcmeq]
  · rw [hfields.2.2.2.2.2, hmsg]
  · have : cm.2 = m := by rw [← hcmeq]
    rw [← this]
    exact hmsg
  · have : cm.1 = c := by rw [← hcmeq]
    rw [← this]
    exact htype

/-- Witness for C7 on `chatC7`, whose build yields exactly `rowC7`. -/
theorem C7_join_correctness_witness :
    ∃ c ∈ [chatC7], ∃ m ∈ c.messages,
      rowC7.chat_id = c.id ∧ rowC7.chat_name = c.name ∧ rowC7.chat_type = c.type ∧
      rowC7.id = m.id ∧ rowC7.type = "message" ∧ m.type = "message" ∧
      c.type ∈ (none : Option (List String)).getD CHAT_TYPES :=
  C7_join_correctness [chatC7] none [rowC7] rfl rowC7 (by decide)

/-! ### Claim C10 -/

/-- C10: the default accepted-chat-type set is exactly
`{private_group, personal_chat}`; the extractor unconditionally keeps
only chats of these two types; and a table built with the default set
contains only rows whose parent chat type is one of them. -/
theorem C10_chat_type_filter :
    CHAT_TYPES = ["private_group", "personal_chat"] ∧
    (∀ (chats : List Chat), ∀ c ∈ load_needed_chats_data chats,
      c.type = "private_group" ∨ c.type = "personal_chat") ∧
    (∀ (chats_list : List Chat) (rows : List Row),
      gen_messages_dataframe chats_list none = Except.ok rows →
      ∀ row ∈ rows, row.chat_type = "private_group" ∨ row.chat_type = "personal_chat") := by
  refine ⟨rfl, ?_, ?_⟩
  · intro chats c hc
    have h2 := List.mem_filter.mp hc
    have h3 : c.type ∈ CHAT_TYPES := of_decide_eq_true h2.2
    simpa [CHAT_TYPES] using h3
  · intro chats_list rows h row hrow
    obtain ⟨cm, hcm, hok⟩ := buildRows_ok_mem _ rows h row hrow
    have hcm2 := List.mem_filter.mp hcm
    have hcm3 := List.mem_filter.mp hcm2.1
    have htype : cm.1.type ∈ CHAT_TYPES := of_decide_eq_true hcm3.2
    have hfields := buildRow_ok_fields cm row hok
    rw [hfields.2.2.1]
    simpa [CHAT_TYPES] using htype

/-- Witness for C10: the channel chat is dropped by the extractor while
the personal chat passes, and the default build on the personal chat
produces a row of an accepted chat type. -/
theorem C10_chat_type_filter_witness :
    (chatC10.type = "private_group" ∨ chatC10.type = "personal_chat") ∧
    (rowC10.chat_type = "private_group" ∨ rowC10.chat_type = "personal_chat") :=
  ⟨C10_chat_type_filter.2.1 [chatC10b, chatC10] chatC10 (by decide),
   C10_chat_type_filter.2.2 [chatC10] [rowC10] rfl rowC10 (by decide)⟩
